import Mathlib

/-!
Verification of the product-catalog and email-subscription backend
(`apps/products` and `apps/marketing`).

The relational rows manipulated by the Django ORM are embedded as Lean
structures, a table as a `List` of rows, and each handler/model method as a
pure Lean function from the old table (plus the request data) to the new
table and response.  String matching (`icontains`, `iexact`, `slugify`,
`isalnum`) is modelled over the ASCII fragment the claims exercise.
-/

namespace Affi

/-- Does `haystack` start with `needle`? -/
def charsStartWith : List Char → List Char → Bool
  | [], _ => true
  | _ :: _, [] => false
  | a :: as, b :: bs => a == b && charsStartWith as bs

/-- Does the second list contain the first as a contiguous run? -/
def charsContain (needle : List Char) : List Char → Bool
  | [] => needle.isEmpty
  | c :: rest => charsStartWith needle (c :: rest) || charsContain needle rest

/-- Python `str.lower` over the ASCII fragment. -/
def strLower (s : String) : String :=
  String.mk (s.toList.map Char.toLower)

/-- Case-insensitive substring test: models the ORM lookup
`field__icontains=needle` (SQL `ILIKE %needle%`). -/
def icontains (haystack needle : String) : Bool :=
  charsContain (strLower needle).toList (strLower haystack).toList

/-- Case-insensitive equality: models the ORM lookup `field__iexact=v`. -/
def iexact (a b : String) : Bool :=
  strLower a == strLower b

/-- Numeric value of a list of decimal digit characters. -/
def digitsToNat (ds : List Char) : Nat :=
  ds.foldl (fun acc c => acc * 10 + (c.toNat - 48)) 0

/-- Sign prefix of a Python numeric literal: `+`, `-`, or none. -/
def parseSign : List Char → Bool × List Char
  | '+' :: rest => (false, rest)
  | '-' :: rest => (true, rest)
  | l => (false, l)

/-- Rational value of a parsed decimal literal
`[sign] intDs . fracDs E exp`. -/
def decValue (neg : Bool) (intDs fracDs : List Char) (exp : Int) : Rat :=
  let m : Nat := digitsToNat (intDs ++ fracDs)
  let sm : Int := if neg then -(m : Int) else (m : Int)
  match exp with
  | .ofNat e => mkRat (sm * (Int.ofNat (Nat.pow 10 e))) (Nat.pow 10 fracDs.length)
  | .negSucc e => mkRat sm (Nat.pow 10 fracDs.length * Nat.pow 10 (e + 1))

/-- Models the conversion `decimal.Decimal(value)` performed by Django's
`DecimalField.to_python` when a string is used against a decimal column
(finite numeric literals: optional sign, digits, optional fraction part,
optional exponent; surrounding blanks stripped).  Returns `none` when the
conversion would raise, e.g. on `"abc"` or `""`. -/
def parseDecimal (s : String) : Option Rat :=
  let cs := s.toList.dropWhile (fun c => c == ' ')
  let cs := (cs.reverse.dropWhile (fun c => c == ' ')).reverse
  let (neg, cs) := parseSign cs
  let intDs := cs.takeWhile Char.isDigit
  let rest := cs.dropWhile Char.isDigit
  let (fracDs, rest) :=
    match rest with
    | '.' :: r => (r.takeWhile Char.isDigit, r.dropWhile Char.isDigit)
    | _ => ([], rest)
  if intDs.isEmpty && fracDs.isEmpty then none
  else
    match rest with
    | [] => some (decValue neg intDs fracDs 0)
    | e :: r =>
      if e == 'e' || e == 'E' then
        let (eneg, r) := parseSign r
        let expDs := r.takeWhile Char.isDigit
        let rest2 := r.dropWhile Char.isDigit
        if expDs.isEmpty || !rest2.isEmpty then none
        else
          let ev : Int := if eneg then -(digitsToNat expDs : Int) else (digitsToNat expDs : Int)
          some (decValue neg intDs fracDs ev)
      else none

/-- A `Product` row (`apps/products/models.py`), with its required
foreign keys (`brand`, `platform`, `category`, `sub_category`) denormalised
to the name/slug pairs the filters look at, and its tag set to the tag
names. -/
structure Product where
  id : String
  product_asin : String
  title : String
  slug : String
  description : String
  price : Rat
  rating : Option Rat
  brandName : String
  brandSlug : String
  categoryName : String
  categorySlug : String
  subCategoryName : String
  subCategorySlug : String
  platformName : String
  platformSlug : String
  tagNames : List String
  published : Bool
  active : Bool
  featured : Bool
deriving DecidableEq, Repr

/-- The recognised query parameters of `ProductFilter.filter_queryset`
(`apps/products/views.py`).  `none` models an absent key; `some s` a key
present with raw string value `s`.  Unrecognised keys never reach the
filter, mirroring `query_params.get`. -/
structure QueryParams where
  search : Option String := none
  brand : Option String := none
  category : Option String := none
  subcategory : Option String := none
  platform : Option String := none
  tags : Option String := none
  featured : Option String := none
  published : Option String := none
  active : Option String := none
  min_price : Option String := none
  max_price : Option String := none
  min_rating : Option String := none
deriving DecidableEq, Repr

/-- Error raised while building the query: a malformed numeric string
handed to a decimal column lookup (Django raises `ValidationError` from
`DecimalField.to_python`). -/
inductive FilterError where
  | invalidDecimal (value : String)
deriving DecidableEq, Repr

/-- `views.py` lines 23-33: the `search` block of
`ProductFilter.filter_queryset` (six ORed `icontains` lookups, then
`.distinct()`).  Python `if search:` skips the empty string. -/
def filterSearchStep (param : Option String) (queryset : List Product) : List Product :=
  match param with
  | some search =>
    if search != "" then
      (queryset.filter (fun p =>
        icontains p.title search ||
        icontains p.description search ||
        icontains p.brandName search ||
        icontains p.categoryName search ||
        icontains p.subCategoryName search ||
        p.tagNames.any (fun t => icontains t search))).dedup
    else queryset
  | none => queryset

/-- `views.py` lines 35-65: the four name-or-slug blocks (`brand`,
`category`, `subcategory`, `platform`), each
`Q(rel__name__iexact=v) | Q(rel__slug__iexact=v)`. -/
def filterNameSlugStep (getName getSlug : Product → String)
    (param : Option String) (queryset : List Product) : List Product :=
  match param with
  | some v =>
    if v != "" then
      queryset.filter (fun p => iexact (getName p) v || iexact (getSlug p) v)
    else queryset
  | none => queryset

/-- `views.py` lines 67-73: the `tags` block — comma-split, strip each
item, keep products having a tag whose name is in the list, then
`.distinct()`. -/
def filterTagsStep (param : Option String) (queryset : List Product) : List Product :=
  match param with
  | some tags =>
    if tags != "" then
      let tag_list := (tags.splitOn (",")).map String.trim
      (queryset.filter (fun p => p.tagNames.any (fun t => tag_list.contains t))).dedup
    else queryset
  | none => queryset

/-- `views.py` lines 75-88: the `featured` / `published` / `active`
blocks.  Guarded by `is not None`, so they apply even to an empty string;
the value is truthy only when it lowercases to `"true"`. -/
def filterBoolStep (getFlag : Product → Bool)
    (param : Option String) (queryset : List Product) : List Product :=
  match param with
  | some v => queryset.filter (fun p => getFlag p == (strLower v == "true"))
  | none => queryset

/-- `views.py` lines 91-94: `price__gte=min_price` with the raw string;
the decimal conversion happens inside the ORM and raises on a malformed
value.  Python `if min_price:` skips the empty string. -/
def filterMinPriceStep (param : Option String) (queryset : List Product) :
    Except FilterError (List Product) :=
  match param with
  | some v =>
    if v != "" then
      match parseDecimal v with
      | some bound => .ok (queryset.filter (fun p => decide (bound ≤ p.price)))
      | none => .error (.invalidDecimal v)
    else .ok queryset
  | none => .ok queryset

/-- `views.py` lines 95-96: `price__lte=max_price`. -/
def filterMaxPriceStep (param : Option String) (queryset : List Product) :
    Except FilterError (List Product) :=
  match param with
  | some v =>
    if v != "" then
      match parseDecimal v with
      | some bound => .ok (queryset.filter (fun p => decide (p.price ≤ bound)))
      | none => .error (.invalidDecimal v)
    else .ok queryset
  | none => .ok queryset

/-- `views.py` lines 99-101: `rating__gte=min_rating`.  A NULL rating
never satisfies a SQL comparison, so rating-less products are dropped. -/
def filterMinRatingStep (param : Option String) (queryset : List Product) :
    Except FilterError (List Product) :=
  match param with
  | some v =>
    if v != "" then
      match parseDecimal v with
      | some bound =>
        .ok (queryset.filter (fun p =>
          match p.rating with
          | some r => decide (bound ≤ r)
          | none => false))
      | none => .error (.invalidDecimal v)
    else .ok queryset
  | none => .ok queryset

/-- The nine infallible blocks of `ProductFilter.filter_queryset`, in
source order: search, brand, category, subcategory, platform, tags,
featured, published, active. -/
def pureFilters (qp : QueryParams) (queryset : List Product) : List Product :=
  let queryset := filterSearchStep qp.search queryset
  let queryset := filterNameSlugStep (fun p => p.brandName) (fun p => p.brandSlug) qp.brand queryset
  let queryset := filterNameSlugStep (fun p => p.categoryName) (fun p => p.categorySlug) qp.category queryset
  let queryset := filterNameSlugStep (fun p => p.subCategoryName) (fun p => p.subCategorySlug) qp.subcategory queryset
  let queryset := filterNameSlugStep (fun p => p.platformName) (fun p => p.platformSlug) qp.platform queryset
  let queryset := filterTagsStep qp.tags queryset
  let queryset := filterBoolStep (fun p => p.featured) qp.featured queryset
  let queryset := filterBoolStep (fun p => p.published) qp.published queryset
  let queryset := filterBoolStep (fun p => p.active) qp.active queryset
  queryset

/-- `ProductFilter.filter_queryset` (`views.py` lines 21-103): the nine
infallible narrowing blocks followed by the three decimal-bound blocks
(`min_price`, `max_price`, `min_rating`), which raise on malformed
values. -/
def ProductFilter.filter_queryset (queryset : List Product) (query_params : QueryParams) :
    Except FilterError (List Product) :=
  match filterMinPriceStep query_params.min_price (pureFilters query_params queryset) with
  | .error e => .error e
  | .ok queryset =>
    match filterMaxPriceStep query_params.max_price queryset with
    | .error e => .error e
    | .ok queryset => filterMinRatingStep query_params.min_rating queryset

/-- `ProductViewSet.queryset` (`views.py` lines 110-114): the base
collection, pre-filtered to `published=True, active=True` before any query
parameter is consulted. -/
def ProductViewSet.queryset (db : List Product) : List Product :=
  db.filter (fun p => p.published && p.active)

/-- `ProductViewSet.get_queryset` (`views.py` lines 127-129): the filter
composer applied to the pre-filtered base collection. -/
def ProductViewSet.get_queryset (db : List Product) (qp : QueryParams) :
    Except FilterError (List Product) :=
  ProductFilter.filter_queryset (ProductViewSet.queryset db) qp

/-- `views.py` line 134: the shape heuristic
`pk.replace('-', '').replace('_', '').isalnum() and len(pk) > 10`.
Python `str.isalnum` is false on the empty string. -/
def isLikelySlugPk (pk : String) : Bool :=
  let stripped := pk.toList.filter (fun c => c != '-' && c != '_')
  !stripped.isEmpty && stripped.all Char.isAlphanum && pk.length > 10

/-- Canonical hex content of a UUID string: Python's `uuid.UUID`
constructor drops hyphens and is case-insensitive. -/
def uuidHex (s : String) : List Char :=
  (s.toList.filter (fun c => c != '-')).map Char.toLower

/-- Is `c` a hexadecimal digit? -/
def isHexChar (c : Char) : Bool :=
  c.isDigit || ('a' ≤ c && c ≤ 'f') || ('A' ≤ c && c ≤ 'F')

/-- Would `uuid.UUID(s)` succeed: exactly 32 hex digits once hyphens are
removed.  Django's `UUIDField` raises on anything else, and the bare
`except` in `retrieve` turns that into a 404. -/
def isValidUUIDString (s : String) : Bool :=
  let h := s.toList.filter (fun c => c != '-')
  h.length == 32 && h.all isHexChar

/-- Outcome of the single-product retrieve endpoint. -/
inductive RetrieveResult where
  | ok (p : Product)
  | notFound
deriving DecidableEq, Repr

/-- `ProductViewSet.retrieve` (`views.py` lines 131-147): route the path
parameter to a slug lookup when `isLikelySlugPk` holds, otherwise to a
primary-key lookup; every raised error (missing row, malformed UUID,
malformed numeric query value) is swallowed by the bare `except` and
reported as a 404. -/
def ProductViewSet.retrieve (db : List Product) (qp : QueryParams) (pk : String) :
    RetrieveResult :=
  match ProductViewSet.get_queryset db qp with
  | .error _ => .notFound
  | .ok qs =>
    if isLikelySlugPk pk then
      match qs.find? (fun p => p.slug == pk) with
      | some p => .ok p
      | none => .notFound
    else
      if isValidUUIDString pk then
        match qs.find? (fun p => uuidHex p.id == uuidHex pk) with
        | some p => .ok p
        | none => .notFound
      else .notFound

/-- HTTP status of the list endpoint `GET /products/`.  DRF's exception
handler converts only its own `APIException`s (plus `Http404` and
`PermissionDenied`); the `ValidationError` raised by Django's
`DecimalField` conversion on a malformed numeric query value is none of
those, so it propagates and the request ends as a 500 server error. -/
def ProductViewSet.listStatus (db : List Product) (qp : QueryParams) : Nat :=
  match ProductViewSet.get_queryset db qp with
  | .ok _ => 200
  | .error _ => 500

/-- `ProductViewSet.featured` (`views.py` lines 149-161):
`self.get_queryset().filter(featured=True)` re-narrowed once more by the
filter composer. -/
def ProductViewSet.featured (db : List Product) (qp : QueryParams) :
    Except FilterError (List Product) :=
  match ProductViewSet.get_queryset db qp with
  | .error e => .error e
  | .ok queryset =>
    ProductFilter.filter_queryset (queryset.filter (fun p => p.featured)) qp

/-- `ProductViewSet.by_category` (`views.py` lines 163-177):
`Q(category__slug=slug) | Q(category__name__iexact=slug)` on
`get_queryset()`, then the filter composer again. -/
def ProductViewSet.by_category (db : List Product) (qp : QueryParams)
    (category_slug : String) : Except FilterError (List Product) :=
  match ProductViewSet.get_queryset db qp with
  | .error e => .error e
  | .ok queryset =>
    ProductFilter.filter_queryset (queryset.filter (fun p =>
      p.categorySlug == category_slug || iexact p.categoryName category_slug)) qp

/-- `ProductViewSet.by_subcategory` (`views.py` lines 179-194). -/
def ProductViewSet.by_subcategory (db : List Product) (qp : QueryParams)
    (subcategory_slug : String) : Except FilterError (List Product) :=
  match ProductViewSet.get_queryset db qp with
  | .error e => .error e
  | .ok queryset =>
    ProductFilter.filter_queryset (queryset.filter (fun p =>
      p.subCategorySlug == subcategory_slug || iexact p.subCategoryName subcategory_slug)) qp

/-- `ProductViewSet.by_brand` (`views.py` lines 196-210). -/
def ProductViewSet.by_brand (db : List Product) (qp : QueryParams)
    (brand_slug : String) : Except FilterError (List Product) :=
  match ProductViewSet.get_queryset db qp with
  | .error e => .error e
  | .ok queryset =>
    ProductFilter.filter_queryset (queryset.filter (fun p =>
      p.brandSlug == brand_slug || iexact p.brandName brand_slug)) qp

/-- `ProductViewSet.by_platform` (`views.py` lines 212-226). -/
def ProductViewSet.by_platform (db : List Product) (qp : QueryParams)
    (platform_slug : String) : Except FilterError (List Product) :=
  match ProductViewSet.get_queryset db qp with
  | .error e => .error e
  | .ok queryset =>
    ProductFilter.filter_queryset (queryset.filter (fun p =>
      p.platformSlug == platform_slug || iexact p.platformName platform_slug)) qp

/-- A `ProductImage` row (`models.py` lines 203-225).  `id` is the
auto primary key (distinct across rows of the table); `productId` the
owning product's key. -/
structure ProductImage where
  id : Nat
  productId : String
  image : String
  alt_text : String
  is_featured : Bool
  order : Nat
deriving DecidableEq, Repr

/-- The framework `Model.save()` row persistence for the image table:
UPDATE the row carrying the same primary key when one is stored, INSERT
otherwise. -/
def ProductImage.persist (db : List ProductImage) (self : ProductImage) : List ProductImage :=
  if db.any (fun r => r.id == self.id) then
    db.map (fun r => if r.id == self.id then self else r)
  else db ++ [self]

/-- The guarded `update(is_featured=False)` of `ProductImage.save`
(`models.py` lines 220-224): clear the flag on every featured image of the
same product other than the row being saved
(`filter(product=self.product, is_featured=True).exclude(id=self.id)`). -/
def ProductImage.clearOtherFeatured (db : List ProductImage) (self : ProductImage) :
    List ProductImage :=
  db.map (fun r =>
    if r.productId == self.productId && r.is_featured && r.id != self.id then
      { r with is_featured := false }
    else r)

/-- `ProductImage.save` (`models.py` lines 218-225): when the incoming row
is featured, first clear the flag on its featured siblings, then persist
the row itself via `super().save()`. -/
def ProductImage.save (db : List ProductImage) (self : ProductImage) : List ProductImage :=
  ProductImage.persist
    (if self.is_featured then ProductImage.clearOtherFeatured db self else db) self

/-- A `ProductVideo` row (`models.py` lines 228-250). -/
structure ProductVideo where
  id : Nat
  productId : String
  video : String
  title : String
  is_featured : Bool
  order : Nat
deriving DecidableEq, Repr

/-- The framework `Model.save()` row persistence for the video table. -/
def ProductVideo.persist (db : List ProductVideo) (self : ProductVideo) : List ProductVideo :=
  if db.any (fun r => r.id == self.id) then
    db.map (fun r => if r.id == self.id then self else r)
  else db ++ [self]

/-- The guarded `update(is_featured=False)` of `ProductVideo.save`
(`models.py` lines 245-249). -/
def ProductVideo.clearOtherFeatured (db : List ProductVideo) (self : ProductVideo) :
    List ProductVideo :=
  db.map (fun r =>
    if r.productId == self.productId && r.is_featured && r.id != self.id then
      { r with is_featured := false }
    else r)

/-- `ProductVideo.save` (`models.py` lines 243-250): same clear-then-save
discipline as `ProductImage.save`, over the video table. -/
def ProductVideo.save (db : List ProductVideo) (self : ProductVideo) : List ProductVideo :=
  ProductVideo.persist
    (if self.is_featured then ProductVideo.clearOtherFeatured db self else db) self

/-- Number of featured images a product has. -/
def featuredImageCount (db : List ProductImage) (pid : String) : Nat :=
  db.countP (fun r => r.productId == pid && r.is_featured)

/-- Number of featured videos a product has. -/
def featuredVideoCount (db : List ProductVideo) (pid : String) : Nat :=
  db.countP (fun r => r.productId == pid && r.is_featured)

/-- Characters kept by `django.utils.text.slugify`: the regular expression
`[^\w\s-]` removes everything that is not a word character, a space or a
hyphen (ASCII fragment). -/
def slugKeep (c : Char) : Bool :=
  c.isAlphanum || c == '_' || c == ' ' || c == '-'

/-- Is `c` collapsed by the `[-\s]+ -> -` rewrite of `slugify`? -/
def isDashOrSpace (c : Char) : Bool :=
  c == '-' || c == ' '

/-- Replace every run of hyphens/spaces by a single hyphen; the flag
records whether the previous character belonged to such a run. -/
def collapseDashesAux : Bool → List Char → List Char
  | _, [] => []
  | inRun, c :: rest =>
    if isDashOrSpace c then
      if inRun then collapseDashesAux true rest
      else '-' :: collapseDashesAux true rest
    else c :: collapseDashesAux false rest

/-- Replace every run of hyphens/spaces by a single hyphen. -/
def collapseDashes (l : List Char) : List Char :=
  collapseDashesAux false l

/-- `str.strip("-_")`: drop hyphens and underscores from both ends. -/
def stripDashUnderscore (l : List Char) : List Char :=
  ((l.dropWhile (fun c => c == '-' || c == '_')).reverse.dropWhile
    (fun c => c == '-' || c == '_')).reverse

/-- `django.utils.text.slugify` on ASCII input: lowercase, drop characters
outside word/space/hyphen, collapse hyphen-or-space runs to one hyphen,
strip hyphens and underscores from the ends. -/
def slugify (value : String) : String :=
  String.mk (stripDashUnderscore
    (collapseDashes ((value.toList.map Char.toLower).filter slugKeep)))

/-- The `while Product.objects.filter(slug=slug).exists()` loop of
`Product.save` (`models.py` lines 170-175): starting from the base slug,
try `base`, `base-1`, `base-2`, ... until a slug not present in `existing`
is found.  The extra `fuel` argument only bounds the recursion; it is
chosen large enough that it never runs out on the inputs the theorems
evaluate. -/
def slugLoop (existing : List String) (base_slug slug : String) (counter fuel : Nat) : String :=
  if existing.contains slug then
    match fuel with
    | 0 => slug
    | f + 1 => slugLoop existing base_slug (base_slug ++ ("-") ++ toString counter) (counter + 1) f
  else slug

/-- Slug chosen by `Product.save` when the row has no slug yet:
`slugify(title)` disambiguated by the incrementing-suffix loop against the
slugs already stored. -/
def Product.generateSlug (existing : List String) (title : String) : String :=
  let base_slug := slugify title
  slugLoop existing base_slug base_slug 1 (existing.length + 1)

/-- The slug-assignment part of `Product.save` (`models.py` lines
167-176): only a row whose slug is empty (`if not self.slug:`) gets a
generated slug; a supplied slug is kept as is. -/
def Product.assignSlug (existingSlugs : List String) (self : Product) : Product :=
  if self.slug = "" then
    { self with slug := Product.generateSlug existingSlugs self.title }
  else self

/-- `Product.save` (`models.py` lines 167-176): assign the slug against
the slugs currently stored, then persist (UPDATE when the id is present,
INSERT otherwise). -/
def Product.save (db : List Product) (self : Product) : List Product :=
  let self := Product.assignSlug (db.map (fun p => p.slug)) self
  if db.any (fun r => r.id == self.id) then
    db.map (fun r => if r.id == self.id then self else r)
  else db ++ [self]

/-- An `EmailSubscription` row (`apps/marketing/models.py` lines 6-57).
Timestamps are abstracted to `Nat`. -/
structure EmailSubscription where
  id : Nat
  email : String
  subscription_type : String
  status : String
  unsubscribed_at : Option Nat
  verification_token : String
  is_verified : Bool
  source : String
  frequency : String
  ip_address : String
  user_agent : String
deriving DecidableEq, Repr

/-- `EmailSubscription.unsubscribe` (`models.py` lines 59-63): set
`status='unsubscribed'`, stamp `unsubscribed_at=timezone.now()`, save. -/
def EmailSubscription.unsubscribe (self : EmailSubscription) (now : Nat) : EmailSubscription :=
  { self with status := "unsubscribed", unsubscribed_at := some now }

/-- `EmailSubscription.verify_email` (`models.py` lines 65-69): set
`is_verified=True`, `status='active'`, save. -/
def EmailSubscription.verify_email (self : EmailSubscription) : EmailSubscription :=
  { self with is_verified := true, status := "active" }

/-- A DRF response of the subscription endpoints, reduced to the branch it
came from. -/
inductive ApiResult where
  | ok (message : String)
  | badRequest (message : String)
  | notFound (message : String)
deriving DecidableEq, Repr

/-- HTTP status code of an `ApiResult`. -/
def ApiResult.statusCode : ApiResult → Nat
  | .ok _ => 200
  | .badRequest _ => 400
  | .notFound _ => 404

/-- `verify_email_subscription` (`apps/marketing/views.py` lines 65-84):
look the subscription up by token (tokens are unique); 400 when none
matches, 200 with no state change when it is already verified, otherwise
`verify_email()` and 200. -/
def verify_email_subscription (db : List EmailSubscription) (token : String) :
    ApiResult × List EmailSubscription :=
  match db.find? (fun s => s.verification_token == token) with
  | some subscription =>
    if subscription.is_verified then
      (.ok ("Email is already verified."), db)
    else
      (.ok ("Email verified successfully! You are now subscribed to receive notifications."),
        db.map (fun s => if s.id == subscription.id then s.verify_email else s))
  | none => (.badRequest ("Invalid verification token."), db)

/-- Body of `POST /subscribe/unsubscribe/`: `request.data.get('email')`
and `request.data.get('token')`. -/
structure UnsubscribeRequest where
  email : Option String := none
  token : Option String := none
deriving DecidableEq, Repr

/-- Python truthiness of an optional string: absent and empty are both
falsy. -/
def strTruthy : Option String → Bool
  | some s => s != ""
  | none => false

/-- The lookup of `unsubscribe_email` (`views.py` lines 100-103): by
token when a token is given, otherwise by lowercased email.
`verification_token` is a `UUIDField`, so the raw body string is first
converted by `uuid.UUID`; a malformed (non-UUID) value makes
`UUIDField.to_python` raise a `ValidationError` (`Except.error`), which
the view's `except EmailSubscription.DoesNotExist` does not catch.  A
valid token is compared by canonical UUID value. -/
def unsubscribeLookup (db : List EmailSubscription) (req : UnsubscribeRequest) :
    Except Unit (Option EmailSubscription) :=
  match req.token with
  | some t =>
    if t != "" then
      if isValidUUIDString t then
        .ok (db.find? (fun s => uuidHex s.verification_token == uuidHex t))
      else .error ()
    else .ok (db.find? (fun s => some s.email == Option.map strLower req.email))
  | none => .ok (db.find? (fun s => some s.email == Option.map strLower req.email))

/-- Outcome of the unsubscribe endpoint: a handled response, or an
exception that escapes the handler (DRF turns an exception it does not
recognise into a 500 server error; no write has happened by then). -/
inductive UnsubscribeResult where
  | response (res : ApiResult) (db : List EmailSubscription)
  | uncaughtError (db : List EmailSubscription)
deriving DecidableEq, Repr

/-- HTTP status of an `UnsubscribeResult`. -/
def UnsubscribeResult.statusCode : UnsubscribeResult → Nat
  | .response r _ => r.statusCode
  | .uncaughtError _ => 500

/-- Stored table after the request. -/
def UnsubscribeResult.table : UnsubscribeResult → List EmailSubscription
  | .response _ db => db
  | .uncaughtError db => db

/-- `unsubscribe_email` (`views.py` lines 87-118): 400 when neither email
nor token is supplied; 404 when the lookup misses (`DoesNotExist`); an
uncaught validation error — a 500 — when the supplied token is not a
syntactically valid UUID; 200 with no state change when the row is
already unsubscribed; otherwise `unsubscribe()` and 200. -/
def unsubscribe_email (db : List EmailSubscription) (req : UnsubscribeRequest) (now : Nat) :
    UnsubscribeResult :=
  if !strTruthy req.email && !strTruthy req.token then
    .response (.badRequest ("Email address or token is required.")) db
  else
    match unsubscribeLookup db req with
    | .error _ => .uncaughtError db
    | .ok none => .response (.notFound ("Subscription not found.")) db
    | .ok (some subscription) =>
      if subscription.status == "unsubscribed" then
        .response (.ok ("Email is already unsubscribed.")) db
      else
        .response (.ok ("Successfully unsubscribed from email notifications."))
          (db.map (fun s => if s.id == subscription.id then s.unsubscribe now else s))

/-- Body of `POST /subscribe/`
(`EmailSubscriptionCreateSerializer`, fields `email`,
`subscription_type`, `frequency`, `source`, `agree_to_terms`). -/
structure SubscribeRequest where
  email : String
  subscription_type : String
  frequency : String
  source : String
  agree_to_terms : Bool
deriving DecidableEq, Repr

/-- `EmailSubscriptionCreateSerializer.validate_email`
(`apps/marketing/serializers.py` lines 47-51): lowercase, then reject the
address when a subscription with that email already exists. -/
def validate_email_unique (db : List EmailSubscription) (value : String) :
    Except String String :=
  let email := strLower value
  if db.any (fun s => s.email == email) then
    .error ("This email is already subscribed.")
  else
    .ok email

/-- The create path of `POST /subscribe/`: serializer validation
(`validate_agree_to_terms`, then `validate_email`; the `EmailField`
format check, also a 400, is elided — it cannot fire on an address equal
to a stored one in the claims below), then `create` persists the new row
with `status='pending'`, `is_verified=False` and a fresh token.  Returns
the HTTP status and the resulting table. -/
def subscription_create (db : List EmailSubscription) (req : SubscribeRequest)
    (newId : Nat) (token : String) : Nat × List EmailSubscription :=
  if !req.agree_to_terms then
    (400, db)
  else
    match validate_email_unique db req.email with
    | .error _ => (400, db)
    | .ok email =>
      (201, db ++ [{
        id := newId
        email := email
        subscription_type := req.subscription_type
        status := "pending"
        unsubscribed_at := none
        verification_token := token
        is_verified := false
        source := req.source
        frequency := req.frequency
        ip_address := ""
        user_agent := "" }])

/-- `EmailSubscriptionAdmin.resubscribe_subscription`
(`apps/marketing/admin.py` lines 236-243), applied to the fetched row:
`status = 'active'; unsubscribed_at = None; save()`. -/
def resubscribe_subscription (self : EmailSubscription) : EmailSubscription :=
  { self with status := "active", unsubscribed_at := none }

/-- A sample published, active product used by the concrete witnesses. -/
def sampleProduct : Product := {
  id := "550e8400-e29b-41d4-a716-446655440000"
  product_asin := "B000TEST01"
  title := "Great Widget Pro"
  slug := "great-widget-pro"
  description := "A very nice widget for testing."
  price := 50
  rating := some 4
  brandName := "Acme"
  brandSlug := "acme"
  categoryName := "Gadgets"
  categorySlug := "gadgets"
  subCategoryName := "Widgets"
  subCategorySlug := "widgets"
  platformName := "Amazon"
  platformSlug := "amazon"
  tagNames := ["tech"]
  published := true
  active := true
  featured := true }

/-- A second sample product, cheaper and not featured. -/
def cheapProduct : Product := { sampleProduct with
  id := "11111111-2222-3333-4444-555555555555"
  product_asin := "B000TEST02"
  title := "Cheap Widget"
  slug := "cheap-widget-basic"
  price := 10
  featured := false }

/-- A sample product with `published=False`. -/
def unpublishedProduct : Product := { sampleProduct with
  id := "99999999-8888-7777-6666-555555555555"
  product_asin := "B000TEST03"
  title := "Hidden Widget"
  slug := "hidden-widget-secret"
  published := false }

/-- Request with no query parameters. -/
def emptyParams : QueryParams := {}

/-- Request carrying `?min_price=abc`. -/
def paramsMinPriceAbc : QueryParams := { min_price := some ("abc") }

/-- Request carrying `?search=widget`. -/
def paramsSearchWidget : QueryParams := { search := some ("widget") }

/-- Request carrying `?published=false`. -/
def paramsPublishedFalse : QueryParams := { published := some ("false") }

/-- Request carrying `?active=false`. -/
def paramsActiveFalse : QueryParams := { active := some ("false") }

/-- Request carrying `?min_price=20`. -/
def paramsMinPrice20 : QueryParams := { min_price := some ("20") }

/-- A sample unverified, pending subscription. -/
def subPending : EmailSubscription := {
  id := 1
  email := "a@b.com"
  subscription_type := "newsletter"
  status := "pending"
  unsubscribed_at := none
  verification_token := "11111111-1111-1111-1111-111111111111"
  is_verified := false
  source := "web"
  frequency := "weekly"
  ip_address := "127.0.0.1"
  user_agent := "test" }

/-- A sample already-verified, active subscription. -/
def subVerified : EmailSubscription := { subPending with
  id := 2
  email := "c@d.com"
  verification_token := "22222222-2222-2222-2222-222222222222"
  is_verified := true
  status := "active" }

/-- A sample already-unsubscribed subscription. -/
def subUnsubscribed : EmailSubscription := { subPending with
  id := 4
  email := "e@f.com"
  verification_token := "44444444-4444-4444-4444-444444444444"
  status := "unsubscribed"
  unsubscribed_at := some 5 }

/-- A featured sample image of product `p1`. -/
def img1 : ProductImage := {
  id := 1
  productId := "p1"
  image := "http://x/1.jpg"
  alt_text := ""
  is_featured := true
  order := 0 }

/-- A non-featured sample image of product `p1`. -/
def img2 : ProductImage := { img1 with
  id := 2
  image := "http://x/2.jpg"
  is_featured := false }

/-- An incoming featured image of product `p1`, not yet stored. -/
def imgNew : ProductImage := { img1 with
  id := 3
  image := "http://x/3.jpg"
  is_featured := true }

/-- A featured sample video of product `p1`. -/
def vid1 : ProductVideo := {
  id := 1
  productId := "p1"
  video := "http://x/1.mp4"
  title := "intro"
  is_featured := true
  order := 0 }

/-- An incoming featured video of product `p1`, not yet stored. -/
def vidNew : ProductVideo := { vid1 with
  id := 2
  video := "http://x/2.mp4" }

/-- First product titled `Great Widget`, created with no slug. -/
def greatWidgetA : Product := { sampleProduct with
  id := "aaaaaaaa-0000-0000-0000-000000000001"
  product_asin := "B000GW01"
  title := "Great Widget"
  slug := "" }

/-- Second product titled `Great Widget`, created with no slug. -/
def greatWidgetB : Product := { sampleProduct with
  id := "aaaaaaaa-0000-0000-0000-000000000002"
  product_asin := "B000GW02"
  title := "Great Widget"
  slug := "" }

/-- A subscribe request whose email lowercases to `subPending`'s email. -/
def dupReq : SubscribeRequest := {
  email := "A@B.com"
  subscription_type := "newsletter"
  frequency := "weekly"
  source := "web"
  agree_to_terms := true }

/-! ### Narrowing lemmas for the filter composer -/

theorem filter_dedup_subset (p : Product → Bool) (qs : List Product) :
    (qs.filter p).dedup ⊆ qs := by
  intro a h
  rw [List.mem_dedup] at h
  exact (List.mem_filter.mp h).1

theorem filterSearchStep_subset (o : Option String) (qs : List Product) :
    filterSearchStep o qs ⊆ qs := by
  cases o with
  | none => exact fun a h => h
  | some s =>
    simp only [filterSearchStep]
    split
    · exact filter_dedup_subset _ qs
    · exact fun a h => h

theorem filterNameSlugStep_subset (gn gs : Product → String) (o : Option String)
    (qs : List Product) : filterNameSlugStep gn gs o qs ⊆ qs := by
  cases o with
  | none => exact fun a h => h
  | some v =>
    simp only [filterNameSlugStep]
    split
    · exact fun a h => (List.mem_filter.mp h).1
    · exact fun a h => h

theorem filterTagsStep_subset (o : Option String) (qs : List Product) :
    filterTagsStep o qs ⊆ qs := by
  cases o with
  | none => exact fun a h => h
  | some v =>
    simp only [filterTagsStep]
    split
    · exact filter_dedup_subset _ qs
    · exact fun a h => h

theorem filterBoolStep_subset (g : Product → Bool) (o : Option String)
    (qs : List Product) : filterBoolStep g o qs ⊆ qs := by
  cases o with
  | none => exact fun a h => h
  | some v => exact fun a h => (List.mem_filter.mp h).1

theorem pureFilters_subset (qp : QueryParams) (qs : List Product) :
    pureFilters qp qs ⊆ qs := by
  unfold pureFilters
  exact (filterBoolStep_subset _ _ _).trans
    ((filterBoolStep_subset _ _ _).trans
    ((filterBoolStep_subset _ _ _).trans
    ((filterTagsStep_subset _ _).trans
    ((filterNameSlugStep_subset _ _ _ _).trans
    ((filterNameSlugStep_subset _ _ _ _).trans
    ((filterNameSlugStep_subset _ _ _ _).trans
    ((filterNameSlugStep_subset _ _ _ _).trans
    (filterSearchStep_subset _ _))))))))

theorem filterMinPriceStep_ok_subset (o : Option String) (qs res : List Product)
    (h : filterMinPriceStep o qs = .ok res) : res ⊆ qs := by
  cases o with
  | none =>
    simp only [filterMinPriceStep] at h
    injection h with h
    subst h
    exact fun a ha => ha
  | some v =>
    simp only [filterMinPriceStep] at h
    split at h
    · cases hp : parseDecimal v with
      | some b =>
        rw [hp] at h
        injection h with h
        subst h
        exact fun a ha => (List.mem_filter.mp ha).1
      | none => rw [hp] at h; exact Except.noConfusion h
    · injection h with h
      subst h
      exact fun a ha => ha

theorem filterMaxPriceStep_ok_subset (o : Option String) (qs res : List Product)
    (h : filterMaxPriceStep o qs = .ok res) : res ⊆ qs := by
  cases o with
  | none =>
    simp only [filterMaxPriceStep] at h
    injection h with h
    subst h
    exact fun a ha => ha
  | some v =>
    simp only [filterMaxPriceStep] at h
    split at h
    · cases hp : parseDecimal v with
      | some b =>
        rw [hp] at h
        injection h with h
        subst h
        exact fun a ha => (List.mem_filter.mp ha).1
      | none => rw [hp] at h; exact Except.noConfusion h
    · injection h with h
      subst h
      exact fun a ha => ha

theorem filterMinRatingStep_ok_subset (o : Option String) (qs res : List Product)
    (h : filterMinRatingStep o qs = .ok res) : res ⊆ qs := by
  cases o with
  | none =>
    simp only [filterMinRatingStep] at h
    injection h with h
    subst h
    exact fun a ha => ha
  | some v =>
    simp only [filterMinRatingStep] at h
    split at h
    · cases hp : parseDecimal v with
      | some b =>
        rw [hp] at h
        injection h with h
        subst h
        exact fun a ha => (List.mem_filter.mp ha).1
      | none => rw [hp] at h; exact Except.noConfusion h
    · injection h with h
      subst h
      exact fun a ha => ha

theorem filter_queryset_ok_subset (qs : List Product) (qp : QueryParams)
    (res : List Product) (h : ProductFilter.filter_queryset qs qp = .ok res) :
    res ⊆ qs := by
  unfold ProductFilter.filter_queryset at h
  split at h
  · exact Except.noConfusion h
  · rename_i q1 h1
    split at h
    · exact Except.noConfusion h
    · rename_i q2 h2
      have s3 := filterMinRatingStep_ok_subset qp.min_rating q2 res h
      have s2 := filterMaxPriceStep_ok_subset qp.max_price q1 q2 h2
      have s1 := filterMinPriceStep_ok_subset qp.min_price (pureFilters qp qs) q1 h1
      exact ((s3.trans s2).trans s1).trans (pureFilters_subset qp qs)

/-- C2: the query filter composer is monotonically narrowing — for every
base collection `C` and every params mapping, every product in
`filter(C, params)` is a member of `C`; no filter key can add rows. -/
theorem C2_filter_monotone_narrowing (C : List Product) (params : QueryParams)
    (res : List Product) (h : ProductFilter.filter_queryset C params = .ok res) :
    ∀ p ∈ res, p ∈ C :=
  fun p hp => filter_queryset_ok_subset C params res h hp

/-- Witness for C2: `?min_price=20` on the two-product collection keeps
exactly the 50-priced product, and it is a member of the base
collection. -/
theorem C2_witness :
    ProductFilter.filter_queryset [sampleProduct, cheapProduct] paramsMinPrice20 =
      .ok [sampleProduct] ∧
    sampleProduct ∈ [sampleProduct, cheapProduct] :=
  ⟨by rfl, C2_filter_monotone_narrowing [sampleProduct, cheapProduct] paramsMinPrice20
      [sampleProduct] (by rfl) sampleProduct (by decide)⟩

/-! ### Visibility of the public product endpoints -/

theorem mem_baseQueryset (db : List Product) (p : Product)
    (h : p ∈ ProductViewSet.queryset db) : p.published = true ∧ p.active = true := by
  have h2 := (List.mem_filter.mp h).2
  simp only [Bool.and_eq_true] at h2
  exact h2

theorem get_queryset_ok_flags (db : List Product) (qp : QueryParams)
    (res : List Product) (h : ProductViewSet.get_queryset db qp = .ok res) :
    ∀ p ∈ res, p.published = true ∧ p.active = true :=
  fun p hp =>
    mem_baseQueryset db p
      (filter_queryset_ok_subset (ProductViewSet.queryset db) qp res h hp)

theorem refiltered_flags (db : List Product) (qp : QueryParams) (pre : Product → Bool)
    (qs res : List Product) (hq : ProductViewSet.get_queryset db qp = .ok qs)
    (h : ProductFilter.filter_queryset (qs.filter pre) qp = .ok res) :
    ∀ p ∈ res, p.published = true ∧ p.active = true := by
  intro p hp
  have h1 : p ∈ qs.filter pre := filter_queryset_ok_subset (qs.filter pre) qp res h hp
  exact get_queryset_ok_flags db qp qs hq p (List.mem_filter.mp h1).1

theorem featured_ok_flags (db : List Product) (qp : QueryParams) (res : List Product)
    (h : ProductViewSet.featured db qp = .ok res) :
    ∀ p ∈ res, p.published = true ∧ p.active = true := by
  unfold ProductViewSet.featured at h
  split at h
  · exact Except.noConfusion h
  · rename_i qs hq
    exact refiltered_flags db qp _ qs res hq h

theorem by_category_ok_flags (db : List Product) (qp : QueryParams) (slug : String)
    (res : List Product) (h : ProductViewSet.by_category db qp slug = .ok res) :
    ∀ p ∈ res, p.published = true ∧ p.active = true := by
  unfold ProductViewSet.by_category at h
  split at h
  · exact Except.noConfusion h
  · rename_i qs hq
    exact refiltered_flags db qp _ qs res hq h

theorem by_subcategory_ok_flags (db : List Product) (qp : QueryParams) (slug : String)
    (res : List Product) (h : ProductViewSet.by_subcategory db qp slug = .ok res) :
    ∀ p ∈ res, p.published = true ∧ p.active = true := by
  unfold ProductViewSet.by_subcategory at h
  split at h
  · exact Except.noConfusion h
  · rename_i qs hq
    exact refiltered_flags db qp _ qs res hq h

theorem by_brand_ok_flags (db : List Product) (qp : QueryParams) (slug : String)
    (res : List Product) (h : ProductViewSet.by_brand db qp slug = .ok res) :
    ∀ p ∈ res, p.published = true ∧ p.active = true := by
  unfold ProductViewSet.by_brand at h
  split at h
  · exact Except.noConfusion h
  · rename_i qs hq
    exact refiltered_flags db qp _ qs res hq h

theorem by_platform_ok_flags (db : List Product) (qp : QueryParams) (slug : String)
    (res : List Product) (h : ProductViewSet.by_platform db qp slug = .ok res) :
    ∀ p ∈ res, p.published = true ∧ p.active = true := by
  unfold ProductViewSet.by_platform at h
  split at h
  · exact Except.noConfusion h
  · rename_i qs hq
    exact refiltered_flags db qp _ qs res hq h

theorem retrieve_ok_flags (db : List Product) (qp : QueryParams) (pk : String)
    (p : Product) (h : ProductViewSet.retrieve db qp pk = .ok p) :
    p.published = true ∧ p.active = true := by
  unfold ProductViewSet.retrieve at h
  split at h
  · exact RetrieveResult.noConfusion h
  · rename_i qs hq
    split at h
    · split at h
      · rename_i q hf
        injection h with h
        subst h
        exact get_queryset_ok_flags db qp qs hq q (List.mem_of_find?_eq_some hf)
      · exact RetrieveResult.noConfusion h
    · split at h
      · split at h
        · rename_i q hf
          injection h with h
          subst h
          exact get_queryset_ok_flags db qp qs hq q (List.mem_of_find?_eq_some hf)
        · exact RetrieveResult.noConfusion h
      · exact RetrieveResult.noConfusion h

theorem filterBoolStep_false_of_all_true (g : Product → Bool) (qs : List Product)
    (hall : ∀ p ∈ qs, g p = true) :
    filterBoolStep g (some ("false")) qs = [] := by
  simp only [filterBoolStep]
  apply List.filter_eq_nil_iff.mpr
  intro p hp
  have hx : (strLower ("false") == "true") = false := by decide
  simp [hall p hp, hx]

theorem filterBoolStep_nil (g : Product → Bool) (o : Option String) :
    filterBoolStep g o [] = [] := by
  cases o <;> simp [filterBoolStep]

theorem pureFilters_published_false (qp : QueryParams) (qs : List Product)
    (hpub : qp.published = some ("false"))
    (hall : ∀ p ∈ qs, p.published = true) :
    pureFilters qp qs = [] := by
  simp only [pureFilters]
  rw [hpub]
  have hsub : filterBoolStep (fun p => p.featured) qp.featured
      (filterTagsStep qp.tags
      (filterNameSlugStep (fun p => p.platformName) (fun p => p.platformSlug) qp.platform
      (filterNameSlugStep (fun p => p.subCategoryName) (fun p => p.subCategorySlug) qp.subcategory
      (filterNameSlugStep (fun p => p.categoryName) (fun p => p.categorySlug) qp.category
      (filterNameSlugStep (fun p => p.brandName) (fun p => p.brandSlug) qp.brand
      (filterSearchStep qp.search qs)))))) ⊆ qs :=
    (filterBoolStep_subset _ _ _).trans
      ((filterTagsStep_subset _ _).trans
      ((filterNameSlugStep_subset _ _ _ _).trans
      ((filterNameSlugStep_subset _ _ _ _).trans
      ((filterNameSlugStep_subset _ _ _ _).trans
      ((filterNameSlugStep_subset _ _ _ _).trans
      (filterSearchStep_subset _ _))))))
  rw [filterBoolStep_false_of_all_true (fun p => p.published) _
    (fun p hp => hall p (hsub hp))]
  exact filterBoolStep_nil _ _

theorem pureFilters_active_false (qp : QueryParams) (qs : List Product)
    (hact : qp.active = some ("false"))
    (hall : ∀ p ∈ qs, p.active = true) :
    pureFilters qp qs = [] := by
  simp only [pureFilters]
  rw [hact]
  have hsub : filterBoolStep (fun p => p.published) qp.published
      (filterBoolStep (fun p => p.featured) qp.featured
      (filterTagsStep qp.tags
      (filterNameSlugStep (fun p => p.platformName) (fun p => p.platformSlug) qp.platform
      (filterNameSlugStep (fun p => p.subCategoryName) (fun p => p.subCategorySlug) qp.subcategory
      (filterNameSlugStep (fun p => p.categoryName) (fun p => p.categorySlug) qp.category
      (filterNameSlugStep (fun p => p.brandName) (fun p => p.brandSlug) qp.brand
      (filterSearchStep qp.search qs))))))) ⊆ qs :=
    (filterBoolStep_subset _ _ _).trans
      ((filterBoolStep_subset _ _ _).trans
      ((filterTagsStep_subset _ _).trans
      ((filterNameSlugStep_subset _ _ _ _).trans
      ((filterNameSlugStep_subset _ _ _ _).trans
      ((filterNameSlugStep_subset _ _ _ _).trans
      ((filterNameSlugStep_subset _ _ _ _).trans
      (filterSearchStep_subset _ _)))))))
  exact filterBoolStep_false_of_all_true (fun p => p.active) _
    (fun p hp => hall p (hsub hp))

theorem filterMinPriceStep_nil_ok (o : Option String) (res : List Product)
    (h : filterMinPriceStep o [] = .ok res) : res = [] := by
  cases o with
  | none =>
    simp only [filterMinPriceStep] at h
    injection h with h
    exact h.symm
  | some v =>
    simp only [filterMinPriceStep] at h
    split at h
    · cases hp : parseDecimal v with
      | some b =>
        rw [hp] at h
        injection h with h
        simpa using h.symm
      | none => rw [hp] at h; exact Except.noConfusion h
    · injection h with h
      exact h.symm

theorem filterMaxPriceStep_nil_ok (o : Option String) (res : List Product)
    (h : filterMaxPriceStep o [] = .ok res) : res = [] := by
  cases o with
  | none =>
    simp only [filterMaxPriceStep] at h
    injection h with h
    exact h.symm
  | some v =>
    simp only [filterMaxPriceStep] at h
    split at h
    · cases hp : parseDecimal v with
      | some b =>
        rw [hp] at h
        injection h with h
        simpa using h.symm
      | none => rw [hp] at h; exact Except.noConfusion h
    · injection h with h
      exact h.symm

theorem filterMinRatingStep_nil_ok (o : Option String) (res : List Product)
    (h : filterMinRatingStep o [] = .ok res) : res = [] := by
  cases o with
  | none =>
    simp only [filterMinRatingStep] at h
    injection h with h
    exact h.symm
  | some v =>
    simp only [filterMinRatingStep] at h
    split at h
    · cases hp : parseDecimal v with
      | some b =>
        rw [hp] at h
        injection h with h
        simpa using h.symm
      | none => rw [hp] at h; exact Except.noConfusion h
    · injection h with h
      exact h.symm

theorem filter_queryset_ok_of_pure_nil (qs : List Product) (qp : QueryParams)
    (res : List Product) (hpure : pureFilters qp qs = [])
    (h : ProductFilter.filter_queryset qs qp = .ok res) : res = [] := by
  unfold ProductFilter.filter_queryset at h
  rw [hpure] at h
  split at h
  · exact Except.noConfusion h
  · rename_i q1 h1
    have hq1 : q1 = [] := filterMinPriceStep_nil_ok qp.min_price q1 h1
    subst hq1
    split at h
    · exact Except.noConfusion h
    · rename_i q2 h2
      have hq2 : q2 = [] := filterMaxPriceStep_nil_ok qp.max_price q2 h2
      subst hq2
      exact filterMinRatingStep_nil_ok qp.min_rating res h

/-- C10: every product returned by any public product endpoint (list,
retrieve, featured, by-category, by-subcategory, by-brand, by-platform)
has `published=true` and `active=true`, because the base collection is
pre-filtered; a request with `published=false` or `active=false` returns
the empty collection; and a product with `published=false` is unreachable
even by its exact slug or id. -/
theorem C10_public_visibility (db : List Product) (qp : QueryParams)
    (slug pk : String) (res : List Product) (p : Product) :
    (ProductViewSet.get_queryset db qp = .ok res → p ∈ res →
      p.published = true ∧ p.active = true) ∧
    (ProductViewSet.featured db qp = .ok res → p ∈ res →
      p.published = true ∧ p.active = true) ∧
    (ProductViewSet.by_category db qp slug = .ok res → p ∈ res →
      p.published = true ∧ p.active = true) ∧
    (ProductViewSet.by_subcategory db qp slug = .ok res → p ∈ res →
      p.published = true ∧ p.active = true) ∧
    (ProductViewSet.by_brand db qp slug = .ok res → p ∈ res →
      p.published = true ∧ p.active = true) ∧
    (ProductViewSet.by_platform db qp slug = .ok res → p ∈ res →
      p.published = true ∧ p.active = true) ∧
    (ProductViewSet.retrieve db qp pk = .ok p →
      p.published = true ∧ p.active = true) ∧
    (qp.published = some ("false") → ProductViewSet.get_queryset db qp = .ok res →
      res = []) ∧
    (qp.active = some ("false") → ProductViewSet.get_queryset db qp = .ok res →
      res = []) ∧
    (p.published = false → ProductViewSet.retrieve db qp pk ≠ .ok p) := by
  refine ⟨?_, ?_, ?_, ?_, ?_, ?_, ?_, ?_, ?_, ?_⟩
  · exact fun h hp => get_queryset_ok_flags db qp res h p hp
  · exact fun h hp => featured_ok_flags db qp res h p hp
  · exact fun h hp => by_category_ok_flags db qp slug res h p hp
  · exact fun h hp => by_subcategory_ok_flags db qp slug res h p hp
  · exact fun h hp => by_brand_ok_flags db qp slug res h p hp
  · exact fun h hp => by_platform_ok_flags db qp slug res h p hp
  · exact fun h => retrieve_ok_flags db qp pk p h
  · intro hpub h
    exact filter_queryset_ok_of_pure_nil (ProductViewSet.queryset db) qp res
      (pureFilters_published_false qp _ hpub (fun q hq => (mem_baseQueryset db q hq).1)) h
  · intro hact h
    exact filter_queryset_ok_of_pure_nil (ProductViewSet.queryset db) qp res
      (pureFilters_active_false qp _ hact (fun q hq => (mem_baseQueryset db q hq).2)) h
  · intro hfalse h
    have hflag := (retrieve_ok_flags db qp pk p h).1
    rw [hfalse] at hflag
    exact Bool.noConfusion hflag

/-- Witness for C10: on a store holding one published and one unpublished
product, the plain list request returns exactly the published one, whose
flags are both set. -/
theorem C10_witness :
    ProductViewSet.get_queryset [sampleProduct, unpublishedProduct] emptyParams =
      .ok [sampleProduct] ∧
    (sampleProduct.published = true ∧ sampleProduct.active = true) :=
  ⟨by rfl,
    (C10_public_visibility [sampleProduct, unpublishedProduct] emptyParams ("x") ("x")
      [sampleProduct] sampleProduct).1 (by rfl) (by decide)⟩

/-! ### Malformed numeric filter values -/

theorem filterMinPriceStep_bad (v : String) (qs : List Product)
    (hv : v ≠ "") (hbad : parseDecimal v = none) :
    filterMinPriceStep (some v) qs = .error (.invalidDecimal v) := by
  have hcond : (v != "") = true := bne_iff_ne.mpr hv
  simp only [filterMinPriceStep, hcond, if_true, hbad]

theorem filterMaxPriceStep_bad (v : String) (qs : List Product)
    (hv : v ≠ "") (hbad : parseDecimal v = none) :
    filterMaxPriceStep (some v) qs = .error (.invalidDecimal v) := by
  have hcond : (v != "") = true := bne_iff_ne.mpr hv
  simp only [filterMaxPriceStep, hcond, if_true, hbad]

theorem filterMinRatingStep_bad (v : String) (qs : List Product)
    (hv : v ≠ "") (hbad : parseDecimal v = none) :
    filterMinRatingStep (some v) qs = .error (.invalidDecimal v) := by
  have hcond : (v != "") = true := bne_iff_ne.mpr hv
  simp only [filterMinRatingStep, hcond, if_true, hbad]

theorem filter_queryset_error_of_bad (qs : List Product) (qp : QueryParams)
    (s : String) (hs : s ≠ "") (hbad : parseDecimal s = none)
    (hqp : qp.min_price = some s ∨ qp.max_price = some s ∨ qp.min_rating = some s) :
    ∀ res, ProductFilter.filter_queryset qs qp ≠ .ok res := by
  intro res h
  unfold ProductFilter.filter_queryset at h
  split at h
  · exact Except.noConfusion h
  · rename_i q1 h1
    split at h
    · exact Except.noConfusion h
    · rename_i q2 h2
      rcases hqp with hm | hm | hm
      · rw [hm, filterMinPriceStep_bad s _ hs hbad] at h1
        exact Except.noConfusion h1
      · rw [hm, filterMaxPriceStep_bad s _ hs hbad] at h2
        exact Except.noConfusion h2
      · rw [hm, filterMinRatingStep_bad s _ hs hbad] at h
        exact Except.noConfusion h

/-- Counterexample for C3 as stated: the claim promises a client (4xx)
error for `?min_price=abc`, but on the list endpoint the malformed value
surfaces as a 500 server error (DRF does not translate the ORM's
validation error), which is not in the 4xx range. -/
theorem C3_counterexample :
    ProductViewSet.listStatus [sampleProduct] paramsMinPriceAbc = 500 ∧
    ¬(400 ≤ ProductViewSet.listStatus [sampleProduct] paramsMinPriceAbc ∧
      ProductViewSet.listStatus [sampleProduct] paramsMinPriceAbc < 500) := by
  have h : ProductViewSet.listStatus [sampleProduct] paramsMinPriceAbc = 500 := by rfl
  refine ⟨h, ?_⟩
  rw [h]
  decide

/-- C3 (amended): for every request whose `min_price`, `max_price` or
`min_rating` value is a non-empty string that does not parse as a number,
the filter operation fails the request — the unparseable value raises an
unhandled validation error, surfacing as a 500 server error on the list
endpoint — and it never silently drops the predicate: no collection
(filtered or unfiltered) is ever produced. -/
theorem C3_amended_malformed_numeric_fails (db : List Product) (qp : QueryParams)
    (s : String) (hs : s ≠ "") (hbad : parseDecimal s = none)
    (hqp : qp.min_price = some s ∨ qp.max_price = some s ∨ qp.min_rating = some s) :
    ProductViewSet.listStatus db qp = 500 ∧
    ∀ res, ProductViewSet.get_queryset db qp ≠ .ok res := by
  have herr := filter_queryset_error_of_bad (ProductViewSet.queryset db) qp s hs hbad hqp
  constructor
  · unfold ProductViewSet.listStatus
    split
    · rename_i r hok
      exact absurd hok (herr r)
    · rfl
  · exact herr

/-- Witness for C3's amended theorem: `?min_price=abc` is non-empty, does
not parse, and drives the list endpoint to a 500. -/
theorem C3_witness :
    ("abc" : String) ≠ "" ∧ parseDecimal ("abc") = none ∧
    ProductViewSet.listStatus [sampleProduct] paramsMinPriceAbc = 500 :=
  ⟨by decide, by rfl,
    (C3_amended_malformed_numeric_fails [sampleProduct] paramsMinPriceAbc ("abc")
      (by decide) (by rfl) (Or.inl rfl)).1⟩

/-- C4 (the code evaluated at the failing input): the canonical UUID
string of a stored, published, active product passes the slug heuristic
(alphanumeric once hyphens are removed, length 36 > 10), so `retrieve`
looks it up as a slug and answers 404; retrieval by the product's actual
slug succeeds.  Retrieval by UUID primary key therefore never returns the
product. -/
theorem C4_uuid_retrieve_not_found :
    isLikelySlugPk ("550e8400-e29b-41d4-a716-446655440000") = true ∧
    ProductViewSet.retrieve [sampleProduct] emptyParams
      ("550e8400-e29b-41d4-a716-446655440000") = .notFound ∧
    ProductViewSet.retrieve [sampleProduct] emptyParams ("great-widget-pro") =
      .ok sampleProduct :=
  ⟨by decide, by rfl, by rfl⟩

/-! ### Single-featured-media invariant -/

theorem countP_map_le_of_imp {α : Type} (p q : α → Bool) (g : α → α) (l : List α)
    (h : ∀ r ∈ l, p (g r) = true → q r = true) :
    (l.map g).countP p ≤ l.countP q := by
  rw [List.countP_map]
  exact List.countP_mono_left (fun r hr hpr => h r hr hpr)

theorem countP_key_le_one_of_nodup {α : Type} (f : α → Nat) (x : Nat) (l : List α)
    (hn : (l.map f).Nodup) : l.countP (fun a => f a == x) ≤ 1 := by
  induction l with
  | nil => simp
  | cons a t ih =>
    rw [List.map_cons, List.nodup_cons] at hn
    rw [List.countP_cons]
    by_cases hax : f a = x
    · have ht : t.countP (fun b => f b == x) = 0 := by
        rw [List.countP_eq_zero]
        intro b hb hbe
        rw [beq_iff_eq] at hbe
        have hmem : f b ∈ t.map f := List.mem_map_of_mem f hb
        rw [hbe, ← hax] at hmem
        exact hn.1 hmem
      rw [ht]
      simp [hax]
    · have hfa : (f a == x) = false := beq_eq_false_iff_ne.mpr hax
      rw [hfa]
      simpa using ih hn.2

theorem ProductImage.clear_countP_le (db : List ProductImage) (img : ProductImage)
    (p : ProductImage → Bool)
    (hm : ∀ r : ProductImage, p { r with is_featured := false } = true → p r = true) :
    (ProductImage.clearOtherFeatured db img).countP p ≤ db.countP p := by
  unfold ProductImage.clearOtherFeatured
  apply countP_map_le_of_imp
  intro r hr hpr
  by_cases hc : (r.productId == img.productId && r.is_featured && r.id != img.id) = true
  · rw [if_pos hc] at hpr
    exact hm r hpr
  · rw [if_neg hc] at hpr
    exact hpr

theorem ProductImage.persist_countP_le (db : List ProductImage) (img : ProductImage)
    (p : ProductImage → Bool) (hpi : p img = false) :
    (ProductImage.persist db img).countP p ≤ db.countP p := by
  unfold ProductImage.persist
  split
  · apply countP_map_le_of_imp
    intro r hr hpr
    by_cases hid : (r.id == img.id) = true
    · rw [if_pos hid, hpi] at hpr
      exact Bool.noConfusion hpr
    · rw [if_neg hid] at hpr
      exact hpr
  · rw [List.countP_append]
    have h1 : List.countP p [img] = 0 := by
      rw [List.countP_cons, List.countP_nil, hpi]
      simp
    rw [h1]
    omega

theorem ProductImage.clear_featured_id (db : List ProductImage) (img : ProductImage)
    (r : ProductImage) (hr : r ∈ ProductImage.clearOtherFeatured db img)
    (hpr : (r.productId == img.productId && r.is_featured) = true) :
    (r.id == img.id) = true := by
  unfold ProductImage.clearOtherFeatured at hr
  rcases List.mem_map.mp hr with ⟨t, ht, heq⟩
  by_cases hc : (t.productId == img.productId && t.is_featured && t.id != img.id) = true
  · rw [if_pos hc] at heq
    subst heq
    simp at hpr
  · rw [if_neg hc] at heq
    subst heq
    rw [Bool.and_eq_true] at hpr
    have hc2 : (t.id != img.id) = false := by
      by_contra hcc
      rw [Bool.not_eq_false] at hcc
      exact hc (by rw [hpr.1, hpr.2, hcc]; rfl)
    rw [bne_eq_false_iff_eq] at hc2
    exact beq_iff_eq.mpr hc2

theorem ProductImage.clear_map_id (db : List ProductImage) (img : ProductImage) :
    (ProductImage.clearOtherFeatured db img).map (fun r => r.id) =
      db.map (fun r => r.id) := by
  unfold ProductImage.clearOtherFeatured
  rw [List.map_map]
  apply List.map_congr_left
  intro t ht
  simp only [Function.comp_apply]
  by_cases hc : (t.productId == img.productId && t.is_featured && t.id != img.id) = true
  · rw [if_pos hc]
  · rw [if_neg hc]

theorem ProductImage.save_featured_count (db : List ProductImage) (img : ProductImage)
    (pid : String) (hnodup : (db.map (fun r => r.id)).Nodup)
    (hle : featuredImageCount db pid ≤ 1) :
    featuredImageCount (ProductImage.save db img) pid ≤ 1 := by
  unfold featuredImageCount at hle ⊢
  unfold ProductImage.save
  by_cases hf : img.is_featured = true
  · rw [if_pos hf]
    by_cases hpid : img.productId = pid
    · subst hpid
      unfold ProductImage.persist
      split
      · refine le_trans
          (countP_map_le_of_imp _ (fun r => r.id == img.id) _ _ ?_) ?_
        · intro r hrdb hpr
          by_cases hid : (r.id == img.id) = true
          · exact hid
          · rw [if_neg hid] at hpr
            exact absurd (ProductImage.clear_featured_id db img r hrdb hpr) hid
        · exact countP_key_le_one_of_nodup (fun r : ProductImage => r.id) img.id
            (ProductImage.clearOtherFeatured db img)
            (by rw [ProductImage.clear_map_id db img]; exact hnodup)
      · rename_i hany
        rw [List.countP_append]
        have h0 : List.countP (fun r => r.productId == img.productId && r.is_featured)
            (ProductImage.clearOtherFeatured db img) = 0 := by
          rw [List.countP_eq_zero]
          intro r hrdb hpr
          have hid := ProductImage.clear_featured_id db img r hrdb hpr
          exact hany (List.any_eq_true.mpr ⟨r, hrdb, hid⟩)
        rw [h0]
        have h1 : List.countP (fun r => r.productId == img.productId && r.is_featured)
            [img] ≤ 1 := by
          rw [List.countP_cons, List.countP_nil]
          split <;> omega
        omega
    · have hpi : ((fun r => r.productId == pid && r.is_featured) img) = false := by
        have hb : (img.productId == pid) = false := beq_eq_false_iff_ne.mpr hpid
        simp [hb]
      refine le_trans (ProductImage.persist_countP_le _ img _ hpi)
        (le_trans (ProductImage.clear_countP_le db img _ ?_) hle)
      intro r hpr
      simp at hpr
  · rw [if_neg hf]
    have hb : img.is_featured = false := by rwa [Bool.not_eq_true] at hf
    have hpi : ((fun r => r.productId == pid && r.is_featured) img) = false := by
      simp [hb]
    exact le_trans (ProductImage.persist_countP_le db img _ hpi) hle

theorem ProductImage.save_clears_siblings (db : List ProductImage) (img : ProductImage)
    (hf : img.is_featured = true) :
    ∀ r ∈ ProductImage.save db img, r.productId = img.productId → r.id ≠ img.id →
      r.is_featured = false := by
  intro r hr hpid hid
  unfold ProductImage.save at hr
  rw [if_pos hf] at hr
  unfold ProductImage.persist at hr
  have hkey : ∀ t ∈ ProductImage.clearOtherFeatured db img, t.productId = img.productId →
      t.id ≠ img.id → t.is_featured = false := by
    intro t ht hpidt hidt
    by_cases hft : t.is_featured = true
    · have hb := ProductImage.clear_featured_id db img t ht
        (by rw [beq_iff_eq.mpr hpidt, hft]; rfl)
      exact absurd (beq_iff_eq.mp hb) hidt
    · rwa [Bool.not_eq_true] at hft
  split at hr
  · rcases List.mem_map.mp hr with ⟨t, ht, heq⟩
    by_cases hidt : (t.id == img.id) = true
    · rw [if_pos hidt] at heq
      subst heq
      exact absurd rfl hid
    · rw [if_neg hidt] at heq
      subst heq
      exact hkey t ht hpid hid
  · rcases List.mem_append.mp hr with h1 | h1
    · exact hkey r h1 hpid hid
    · rw [List.mem_singleton] at h1
      subst h1
      exact absurd rfl hid

theorem ProductVideo.video_clear_countP_le (db : List ProductVideo) (vid : ProductVideo)
    (p : ProductVideo → Bool)
    (hm : ∀ r : ProductVideo, p { r with is_featured := false } = true → p r = true) :
    (ProductVideo.clearOtherFeatured db vid).countP p ≤ db.countP p := by
  unfold ProductVideo.clearOtherFeatured
  apply countP_map_le_of_imp
  intro r hr hpr
  by_cases hc : (r.productId == vid.productId && r.is_featured && r.id != vid.id) = true
  · rw [if_pos hc] at hpr
    exact hm r hpr
  · rw [if_neg hc] at hpr
    exact hpr

theorem ProductVideo.video_persist_countP_le (db : List ProductVideo) (vid : ProductVideo)
    (p : ProductVideo → Bool) (hpi : p vid = false) :
    (ProductVideo.persist db vid).countP p ≤ db.countP p := by
  unfold ProductVideo.persist
  split
  · apply countP_map_le_of_imp
    intro r hr hpr
    by_cases hid : (r.id == vid.id) = true
    · rw [if_pos hid, hpi] at hpr
      exact Bool.noConfusion hpr
    · rw [if_neg hid] at hpr
      exact hpr
  · rw [List.countP_append]
    have h1 : List.countP p [vid] = 0 := by
      rw [List.countP_cons, List.countP_nil, hpi]
      simp
    rw [h1]
    omega

theorem ProductVideo.video_clear_featured_id (db : List ProductVideo) (vid : ProductVideo)
    (r : ProductVideo) (hr : r ∈ ProductVideo.clearOtherFeatured db vid)
    (hpr : (r.productId == vid.productId && r.is_featured) = true) :
    (r.id == vid.id) = true := by
  unfold ProductVideo.clearOtherFeatured at hr
  rcases List.mem_map.mp hr with ⟨t, ht, heq⟩
  by_cases hc : (t.productId == vid.productId && t.is_featured && t.id != vid.id) = true
  · rw [if_pos hc] at heq
    subst heq
    simp at hpr
  · rw [if_neg hc] at heq
    subst heq
    rw [Bool.and_eq_true] at hpr
    have hc2 : (t.id != vid.id) = false := by
      by_contra hcc
      rw [Bool.not_eq_false] at hcc
      exact hc (by rw [hpr.1, hpr.2, hcc]; rfl)
    rw [bne_eq_false_iff_eq] at hc2
    exact beq_iff_eq.mpr hc2

theorem ProductVideo.video_clear_map_id (db : List ProductVideo) (vid : ProductVideo) :
    (ProductVideo.clearOtherFeatured db vid).map (fun r => r.id) =
      db.map (fun r => r.id) := by
  unfold ProductVideo.clearOtherFeatured
  rw [List.map_map]
  apply List.map_congr_left
  intro t ht
  simp only [Function.comp_apply]
  by_cases hc : (t.productId == vid.productId && t.is_featured && t.id != vid.id) = true
  · rw [if_pos hc]
  · rw [if_neg hc]

theorem ProductVideo.video_save_featured_count (db : List ProductVideo) (vid : ProductVideo)
    (pid : String) (hnodup : (db.map (fun r => r.id)).Nodup)
    (hle : featuredVideoCount db pid ≤ 1) :
    featuredVideoCount (ProductVideo.save db vid) pid ≤ 1 := by
  unfold featuredVideoCount at hle ⊢
  unfold ProductVideo.save
  by_cases hf : vid.is_featured = true
  · rw [if_pos hf]
    by_cases hpid : vid.productId = pid
    · subst hpid
      unfold ProductVideo.persist
      split
      · refine le_trans
          (countP_map_le_of_imp _ (fun r => r.id == vid.id) _ _ ?_) ?_
        · intro r hrdb hpr
          by_cases hid : (r.id == vid.id) = true
          · exact hid
          · rw [if_neg hid] at hpr
            exact absurd (ProductVideo.video_clear_featured_id db vid r hrdb hpr) hid
        · exact countP_key_le_one_of_nodup (fun r : ProductVideo => r.id) vid.id
            (ProductVideo.clearOtherFeatured db vid)
            (by rw [ProductVideo.video_clear_map_id db vid]; exact hnodup)
      · rename_i hany
        rw [List.countP_append]
        have h0 : List.countP (fun r => r.productId == vid.productId && r.is_featured)
            (ProductVideo.clearOtherFeatured db vid) = 0 := by
          rw [List.countP_eq_zero]
          intro r hrdb hpr
          have hid := ProductVideo.video_clear_featured_id db vid r hrdb hpr
          exact hany (List.any_eq_true.mpr ⟨r, hrdb, hid⟩)
        rw [h0]
        have h1 : List.countP (fun r => r.productId == vid.productId && r.is_featured)
            [vid] ≤ 1 := by
          rw [List.countP_cons, List.countP_nil]
          split <;> omega
        omega
    · have hpi : ((fun r => r.productId == pid && r.is_featured) vid) = false := by
        have hb : (vid.productId == pid) = false := beq_eq_false_iff_ne.mpr hpid
        simp [hb]
      refine le_trans (ProductVideo.video_persist_countP_le _ vid _ hpi)
        (le_trans (ProductVideo.video_clear_countP_le db vid _ ?_) hle)
      intro r hpr
      simp at hpr
  · rw [if_neg hf]
    have hb : vid.is_featured = false := by rwa [Bool.not_eq_true] at hf
    have hpi : ((fun r => r.productId == pid && r.is_featured) vid) = false := by
      simp [hb]
    exact le_trans (ProductVideo.video_persist_countP_le db vid _ hpi) hle

theorem ProductVideo.video_save_clears_siblings (db : List ProductVideo) (vid : ProductVideo)
    (hf : vid.is_featured = true) :
    ∀ r ∈ ProductVideo.save db vid, r.productId = vid.productId → r.id ≠ vid.id →
      r.is_featured = false := by
  intro r hr hpid hid
  unfold ProductVideo.save at hr
  rw [if_pos hf] at hr
  unfold ProductVideo.persist at hr
  have hkey : ∀ t ∈ ProductVideo.clearOtherFeatured db vid, t.productId = vid.productId →
      t.id ≠ vid.id → t.is_featured = false := by
    intro t ht hpidt hidt
    by_cases hft : t.is_featured = true
    · have hb := ProductVideo.video_clear_featured_id db vid t ht
        (by rw [beq_iff_eq.mpr hpidt, hft]; rfl)
      exact absurd (beq_iff_eq.mp hb) hidt
    · rwa [Bool.not_eq_true] at hft
  split at hr
  · rcases List.mem_map.mp hr with ⟨t, ht, heq⟩
    by_cases hidt : (t.id == vid.id) = true
    · rw [if_pos hidt] at heq
      subst heq
      exact absurd rfl hid
    · rw [if_neg hidt] at heq
      subst heq
      exact hkey t ht hpid hid
  · rcases List.mem_append.mp hr with h1 | h1
    · exact hkey r h1 hpid hid
    · rw [List.mem_singleton] at h1
      subst h1
      exact absurd rfl hid

/-- C1: saving a featured image (or video) unsets the flag on every other
image (resp. video) of the same product, and the at-most-one-featured
invariant is preserved by every save, for any product.  The `Nodup`
hypothesis states that primary keys are unique, which the storage layer
guarantees. -/
theorem C1_single_featured_media (idb : List ProductImage) (img : ProductImage)
    (vdb : List ProductVideo) (vid : ProductVideo) (pid : String) :
    (img.is_featured = true →
      ∀ r ∈ ProductImage.save idb img, r.productId = img.productId → r.id ≠ img.id →
        r.is_featured = false) ∧
    ((idb.map (fun r => r.id)).Nodup → featuredImageCount idb pid ≤ 1 →
      featuredImageCount (ProductImage.save idb img) pid ≤ 1) ∧
    (vid.is_featured = true →
      ∀ r ∈ ProductVideo.save vdb vid, r.productId = vid.productId → r.id ≠ vid.id →
        r.is_featured = false) ∧
    ((vdb.map (fun r => r.id)).Nodup → featuredVideoCount vdb pid ≤ 1 →
      featuredVideoCount (ProductVideo.save vdb vid) pid ≤ 1) :=
  ⟨fun hf => ProductImage.save_clears_siblings idb img hf,
   fun hn hle => ProductImage.save_featured_count idb img pid hn hle,
   fun hf => ProductVideo.video_save_clears_siblings vdb vid hf,
   fun hn hle => ProductVideo.video_save_featured_count vdb vid pid hn hle⟩

/-- Witness for C1: saving a new featured image over a table already
holding a featured image of the same product keeps the count at one, and
likewise for videos. -/
theorem C1_witness :
    imgNew.is_featured = true ∧
    ([img1, img2].map (fun r => r.id)).Nodup ∧
    featuredImageCount [img1, img2] ("p1") ≤ 1 ∧
    featuredImageCount (ProductImage.save [img1, img2] imgNew) ("p1") ≤ 1 ∧
    vidNew.is_featured = true ∧
    ([vid1].map (fun r => r.id)).Nodup ∧
    featuredVideoCount [vid1] ("p1") ≤ 1 ∧
    featuredVideoCount (ProductVideo.save [vid1] vidNew) ("p1") ≤ 1 :=
  ⟨by decide, by decide, by decide,
    (C1_single_featured_media [img1, img2] imgNew [vid1] vidNew ("p1")).2.1
      (by decide) (by decide),
    by decide, by decide, by decide,
    (C1_single_featured_media [img1, img2] imgNew [vid1] vidNew ("p1")).2.2.2
      (by decide) (by decide)⟩

/-! ### Slug generation, subscription lifecycle -/

/-- C5: product slug generation on first save, when no slug is supplied,
derives the slug by lowercasing and hyphenating the title and resolves
collisions by an incrementing suffix: two products titled `Great Widget`
get `great-widget` and `great-widget-1`; a supplied or already-set slug is
never recomputed. -/
theorem C5_slug_generation :
    slugify ("Great Widget") = ("great-widget") ∧
    ((Product.save [] greatWidgetA).map (fun p => p.slug)) = [("great-widget")] ∧
    ((Product.save (Product.save [] greatWidgetA) greatWidgetB).map (fun p => p.slug)) =
      [("great-widget"), ("great-widget-1")] ∧
    (∀ (ex : List String) (p : Product), p.slug ≠ "" → Product.assignSlug ex p = p) := by
  refine ⟨by rfl, by rfl, by rfl, ?_⟩
  intro ex p hp
  unfold Product.assignSlug
  rw [if_neg hp]

/-- Witness for C5: the already-slugged sample product is saved with its
slug untouched. -/
theorem C5_witness :
    sampleProduct.slug ≠ "" ∧ Product.assignSlug [] sampleProduct = sampleProduct :=
  ⟨by decide, C5_slug_generation.2.2.2 [] sampleProduct (by decide)⟩

/-- C6: the verify endpoint returns 400 when the token matches no
subscription; 200 with no state change when the matched subscription is
already verified; otherwise marks it `is_verified=true, status='active'`
and returns 200. -/
theorem C6_verify_endpoint (db : List EmailSubscription) (token : String) :
    (db.find? (fun s => s.verification_token == token) = none →
      verify_email_subscription db token =
        (.badRequest ("Invalid verification token."), db) ∧
      (verify_email_subscription db token).1.statusCode = 400) ∧
    (∀ s, db.find? (fun s => s.verification_token == token) = some s →
      s.is_verified = true →
      verify_email_subscription db token = (.ok ("Email is already verified."), db) ∧
      (verify_email_subscription db token).1.statusCode = 200) ∧
    (∀ s, db.find? (fun s => s.verification_token == token) = some s →
      s.is_verified = false →
      (verify_email_subscription db token).1.statusCode = 200 ∧
      (verify_email_subscription db token).2 =
        db.map (fun r => if r.id == s.id then r.verify_email else r) ∧
      (s.verify_email).is_verified = true ∧ (s.verify_email).status = "active" ∧
      (∀ r ∈ (verify_email_subscription db token).2, r.id ≠ s.id → r ∈ db)) := by
  refine ⟨?_, ?_, ?_⟩
  · intro hnone
    unfold verify_email_subscription
    rw [hnone]
    exact ⟨rfl, rfl⟩
  · intro s hs hv
    unfold verify_email_subscription
    rw [hs]
    simp [hv, ApiResult.statusCode]
  · intro s hs hv
    have hmap : (verify_email_subscription db token).2 =
        db.map (fun r => if r.id == s.id then r.verify_email else r) := by
      unfold verify_email_subscription
      rw [hs]
      simp [hv]
    have hcode : (verify_email_subscription db token).1.statusCode = 200 := by
      unfold verify_email_subscription
      rw [hs]
      simp [hv, ApiResult.statusCode]
    refine ⟨hcode, hmap, rfl, rfl, ?_⟩
    intro r hr hne
    rw [hmap] at hr
    rcases List.mem_map.mp hr with ⟨t, ht, heq⟩
    by_cases hid : (t.id == s.id) = true
    · rw [if_pos hid] at heq
      subst heq
      exact absurd (beq_iff_eq.mp hid) hne
    · rw [if_neg hid] at heq
      subst heq
      exact ht

/-- Witness for C6: verifying the pending subscription by its token
turns it active and verified. -/
theorem C6_witness :
    List.find? (fun s => s.verification_token == ("11111111-1111-1111-1111-111111111111"))
      [subPending] = some subPending ∧
    subPending.is_verified = false ∧
    (verify_email_subscription [subPending]
      ("11111111-1111-1111-1111-111111111111")).1.statusCode = 200 :=
  ⟨by decide, by decide,
    ((C6_verify_endpoint [subPending] ("11111111-1111-1111-1111-111111111111")).2.2 subPending
      (by decide) (by decide)).1⟩

/-- Counterexample for C7 as stated: the claim promises a 404 whenever
the supplied identifier matches no subscription, but a body token that is
not a syntactically valid UUID — which certainly matches no stored
subscription — makes the `UUIDField` lookup raise a validation error that
the view's `except EmailSubscription.DoesNotExist` does not catch, so the
request ends as a 500 server error, not a 404. -/
theorem C7_counterexample :
    ([subPending].all (fun s => s.verification_token != "xyz")) = true ∧
    unsubscribe_email [subPending] { email := none, token := some ("xyz") } 7 =
      .uncaughtError [subPending] ∧
    (unsubscribe_email [subPending] { email := none, token := some ("xyz") } 7).statusCode =
      500 ∧
    (unsubscribe_email [subPending] { email := none, token := some ("xyz") } 7).statusCode ≠
      404 :=
  ⟨by decide, by rfl, by rfl, by decide⟩

/-- C7 (amended): the unsubscribe endpoint fails with a 400 error when the
body supplies neither email nor token; when the lookup runs — by
lowercased email, or by a body token that is a syntactically valid UUID —
a miss yields a 404; a non-empty token that is not a valid UUID raises an
uncaught validation error and the request ends as a 500 server error with
the table unchanged; a match that is already unsubscribed yields 200 and
changes nothing; otherwise the matched row gets `status='unsubscribed'`
and a stamped `unsubscribed_at`, with a 200. -/
theorem C7_unsubscribe_endpoint_amended (db : List EmailSubscription)
    (req : UnsubscribeRequest) (now : Nat) :
    (strTruthy req.email = false → strTruthy req.token = false →
      unsubscribe_email db req now =
        .response (.badRequest ("Email address or token is required.")) db ∧
      (unsubscribe_email db req now).statusCode = 400) ∧
    ((strTruthy req.email = true ∨ strTruthy req.token = true) →
      unsubscribeLookup db req = .ok none →
      unsubscribe_email db req now =
        .response (.notFound ("Subscription not found.")) db ∧
      (unsubscribe_email db req now).statusCode = 404) ∧
    (∀ t, req.token = some t → t ≠ "" → isValidUUIDString t = false →
      unsubscribe_email db req now = .uncaughtError db ∧
      (unsubscribe_email db req now).statusCode = 500) ∧
    (∀ s, (strTruthy req.email = true ∨ strTruthy req.token = true) →
      unsubscribeLookup db req = .ok (some s) → s.status = "unsubscribed" →
      unsubscribe_email db req now =
        .response (.ok ("Email is already unsubscribed.")) db ∧
      (unsubscribe_email db req now).statusCode = 200) ∧
    (∀ s, (strTruthy req.email = true ∨ strTruthy req.token = true) →
      unsubscribeLookup db req = .ok (some s) → s.status ≠ "unsubscribed" →
      (unsubscribe_email db req now).statusCode = 200 ∧
      (unsubscribe_email db req now).table =
        db.map (fun r => if r.id == s.id then r.unsubscribe now else r) ∧
      (s.unsubscribe now).status = "unsubscribed" ∧
      (s.unsubscribe now).unsubscribed_at = some now ∧
      (∀ r ∈ (unsubscribe_email db req now).table, r.id ≠ s.id → r ∈ db)) := by
  have hcond : ∀ he : strTruthy req.email = true ∨ strTruthy req.token = true,
      (!strTruthy req.email && !strTruthy req.token) = false := by
    intro he
    rcases he with h | h <;> rw [h] <;> simp
  refine ⟨?_, ?_, ?_, ?_, ?_⟩
  · intro he ht
    unfold unsubscribe_email
    rw [he, ht]
    exact ⟨rfl, rfl⟩
  · intro hor hnone
    unfold unsubscribe_email
    rw [hcond hor, hnone]
    exact ⟨rfl, rfl⟩
  · intro t ht hne hbad
    have htr : strTruthy req.token = true := by
      rw [ht]
      exact bne_iff_ne.mpr hne
    have hlook : unsubscribeLookup db req = .error () := by
      unfold unsubscribeLookup
      rw [ht]
      simp [bne_iff_ne.mpr hne, hbad]
    unfold unsubscribe_email
    rw [hcond (Or.inr htr), hlook]
    exact ⟨rfl, rfl⟩
  · intro s hor hs hst
    have hb : (s.status == "unsubscribed") = true := beq_iff_eq.mpr hst
    unfold unsubscribe_email
    rw [hcond hor, hs]
    simp [hb, UnsubscribeResult.statusCode, ApiResult.statusCode]
  · intro s hor hs hst
    have hb : (s.status == "unsubscribed") = false := beq_eq_false_iff_ne.mpr hst
    have hmap : (unsubscribe_email db req now).table =
        db.map (fun r => if r.id == s.id then r.unsubscribe now else r) := by
      unfold unsubscribe_email
      rw [hcond hor, hs]
      simp [hb, UnsubscribeResult.table]
    have hcode : (unsubscribe_email db req now).statusCode = 200 := by
      unfold unsubscribe_email
      rw [hcond hor, hs]
      simp [hb, UnsubscribeResult.statusCode, ApiResult.statusCode]
    refine ⟨hcode, hmap, rfl, rfl, ?_⟩
    intro r hr hne
    rw [hmap] at hr
    rcases List.mem_map.mp hr with ⟨t, ht, heq⟩
    by_cases hid : (t.id == s.id) = true
    · rw [if_pos hid] at heq
      subst heq
      exact absurd (beq_iff_eq.mp hid) hne
    · rw [if_neg hid] at heq
      subst heq
      exact ht

/-- Witness for C7's amended theorem: unsubscribing the active
subscription by email stamps it unsubscribed with a 200. -/
theorem C7_witness :
    strTruthy (some ("c@d.com")) = true ∧
    unsubscribeLookup [subVerified] { email := some ("c@d.com"), token := none } =
      .ok (some subVerified) ∧
    subVerified.status ≠ "unsubscribed" ∧
    (unsubscribe_email [subVerified] { email := some ("c@d.com"), token := none }
      7).statusCode = 200 :=
  ⟨by decide, by rfl, by decide,
    ((C7_unsubscribe_endpoint_amended [subVerified]
        { email := some ("c@d.com"), token := none } 7).2.2.2.2
      subVerified (Or.inl (by decide)) (by rfl) (by decide)).1⟩

/-- C8: creating a subscription whose lowercased email equals the email of
a stored subscription fails with a 400 validation error and persists no
new row — the stored table is returned unchanged. -/
theorem C8_duplicate_email_rejected (db : List EmailSubscription) (req : SubscribeRequest)
    (newId : Nat) (token : String) (s : EmailSubscription) (hs : s ∈ db)
    (hdup : s.email = strLower req.email) :
    subscription_create db req newId token = (400, db) := by
  have hdupb : (db.any (fun t => t.email == strLower req.email)) = true :=
    List.any_eq_true.mpr ⟨s, hs, beq_iff_eq.mpr hdup⟩
  have hv : validate_email_unique db req.email =
      .error ("This email is already subscribed.") := by
    simp only [validate_email_unique]
    rw [if_pos hdupb]
  unfold subscription_create
  split
  · rfl
  · rw [hv]

/-- Witness for C8: the request for `A@B.com` collides with the stored
`a@b.com` and is rejected with the table unchanged. -/
theorem C8_witness :
    subPending ∈ [subPending] ∧
    subPending.email = strLower ("A@B.com") ∧
    subscription_create [subPending] dupReq 2 ("tok-9") = (400, [subPending]) :=
  ⟨by decide, by decide,
    C8_duplicate_email_rejected [subPending] dupReq 2 ("tok-9") subPending
      (by decide) (by decide)⟩

/-- C9: the admin resubscribe operation sets `status='active'`, clears
`unsubscribed_at`, and leaves every other field (email, is_verified,
verification_token, subscription_type, frequency, source) unchanged,
regardless of the record's verification state. -/
theorem C9_resubscribe_frame (s : EmailSubscription) :
    (resubscribe_subscription s).status = "active" ∧
    (resubscribe_subscription s).unsubscribed_at = none ∧
    (resubscribe_subscription s).email = s.email ∧
    (resubscribe_subscription s).is_verified = s.is_verified ∧
    (resubscribe_subscription s).verification_token = s.verification_token ∧
    (resubscribe_subscription s).subscription_type = s.subscription_type ∧
    (resubscribe_subscription s).frequency = s.frequency ∧
    (resubscribe_subscription s).source = s.source ∧
    (resubscribe_subscription s).id = s.id :=
  ⟨rfl, rfl, rfl, rfl, rfl, rfl, rfl, rfl, rfl⟩

end Affi
